import Mathlib

/-!
Verification of the query-DSL value-normalization layer, omission capability,
query tree and serialization of jenrik/elasticsearch-dsl-rs, shallowly embedded
from the Rust sources (src/search/params/term.rs, src/search/queries/...,
src/search/aggregations/aggregations_handler.rs).

Rust floating-point values (f32/f64) are modelled by `FP`: NaN, the two
infinities, or a finite value given as a rational. The code under scrutiny uses
floats only through `eq`, `partial_cmp` and the exact f32-to-f64 widening, all
of which are captured exactly by this model (the distinction between the two
zero signs, invisible
to eq and partial_cmp, is collapsed). Where a statement needs "is a 32-bit
float value", the predicate `FP.isF32Rep` states representability as m * 2^e
with |m| < 2^24 and -149 <= e <= 104, the exact characterization of finite
f32 values.

Machine integers i64/u64 are modelled as Int/Nat together with explicit range
bounds used as hypotheses where they matter.
-/

namespace ElasticDsl

/-- Model of a Rust floating-point value as used by this code: NaN, an
infinity, or a finite value, the latter given by the rational it denotes. -/
inductive FP where
  | nan : FP
  | negInf : FP
  | posInf : FP
  | finite (q : ℚ) : FP
deriving DecidableEq

/-- Finite f32 values are exactly the rationals m * 2^e with |m| < 2^24 and
-149 <= e <= 104; NaN and the infinities exist at 32 bits as well. -/
def FP.isF32Rep : FP → Prop
  | .finite q => ∃ m e : ℤ, q = (m : ℚ) * (2 : ℚ) ^ e ∧ m.natAbs < 2 ^ 24 ∧ -149 ≤ e ∧ e ≤ 104
  | _ => True

/-- Finite f64 values are exactly the rationals m * 2^e with |m| < 2^53 and
-1074 <= e <= 971. -/
def FP.isF64Rep : FP → Prop
  | .finite q => ∃ m e : ℤ, q = (m : ℚ) * (2 : ℚ) ^ e ∧ m.natAbs < 2 ^ 53 ∧ -1074 ≤ e ∧ e ≤ 971
  | _ => True

/-- IEEE equality (Rust `f32::eq` / `f64::eq`): NaN equals nothing, otherwise
values are equal iff they denote the same extended real. -/
def FP.eqb : FP → FP → Bool
  | .nan, _ => false
  | _, .nan => false
  | .negInf, .negInf => true
  | .posInf, .posInf => true
  | .finite a, .finite b => decide (a = b)
  | _, _ => false

/-- Three-way comparison of rationals, modelling `Ord` on the reals. -/
def ratCompare (a b : ℚ) : Ordering :=
  if a < b then .lt else if a = b then .eq else .gt

/-- Rust `partial_cmp` on floats: `none` exactly when an operand is NaN,
otherwise the comparison of the denoted extended reals. -/
def FP.cmpPartial : FP → FP → Option Ordering
  | .nan, _ => none
  | _, .nan => none
  | .negInf, .negInf => some .eq
  | .negInf, _ => some .lt
  | _, .negInf => some .gt
  | .posInf, .posInf => some .eq
  | _, .posInf => some .lt
  | .posInf, _ => some .gt
  | .finite a, .finite b => some (ratCompare a b)

/-- Lower bound of `i64`. -/
def i64Min : ℤ := -(2 ^ 63)

/-- Upper bound of `i64`. -/
def i64Max : ℤ := 2 ^ 63 - 1

/-- Upper bound of `u64`. -/
def u64Max : ℕ := 2 ^ 64 - 1

/-- `i64::try_from(u64)`: succeeds iff the value fits below `i64::MAX`. -/
def i64TryFromU64 (u : ℕ) : Option ℤ :=
  if (u : ℤ) ≤ i64Max then some (u : ℤ) else none

/-- `u64::try_from(i64)`: succeeds iff the value is non-negative. -/
def u64TryFromI64 (i : ℤ) : Option ℕ :=
  if 0 ≤ i then some i.toNat else none

/-- `f64::try_from(f32)` (via `From`): the exact, infallible widening; in this
model the denoted value is unchanged. -/
def f64TryFromF32 (x : FP) : Option FP := some x

/-- `try_eq` from term.rs at L = i64, R = u64: convert the right operand into
the left operand's type and compare, `false` when the conversion fails. -/
def tryEqSignedUnsigned (left : ℤ) (right : ℕ) : Bool :=
  match i64TryFromU64 right with
  | none => false
  | some r => decide (left = r)

/-- `try_eq` from term.rs at L = u64, R = i64. -/
def tryEqUnsignedSigned (left : ℕ) (right : ℤ) : Bool :=
  match u64TryFromI64 right with
  | none => false
  | some r => decide (left = r)

/-- The `Inner` enum of term.rs: the tagged payload of a `Term`. The chrono
`DateTime<Utc>` is modelled by its timeline position as an integer. -/
inductive Inner where
  | bool (b : Bool) : Inner
  | string (s : String) : Inner
  | signedInteger (i : ℤ) : Inner
  | unsignedInteger (u : ℕ) : Inner
  | float32 (x : FP) : Inner
  | float64 (x : FP) : Inner
  | dateTime (t : ℤ) : Inner
deriving DecidableEq

/-- `impl PartialEq for Inner` (term.rs lines 42-59), case by case. The two
float cross-pairings both call `try_eq` with the f64 on the left and the
widened f32 on the right, exactly as lines 52-53 do. -/
def Inner.eqb : Inner → Inner → Bool
  | .bool s, .bool o => s == o
  | .string s, .string o => s == o
  | .signedInteger s, .signedInteger o => decide (s = o)
  | .signedInteger s, .unsignedInteger o => tryEqSignedUnsigned s o
  | .unsignedInteger s, .signedInteger o => tryEqUnsignedSigned s o
  | .unsignedInteger s, .unsignedInteger o => decide (s = o)
  | .float32 s, .float32 o => FP.eqb s o
  | .float32 s, .float64 o =>
      match f64TryFromF32 s with
      | none => false
      | some r => FP.eqb o r
  | .float64 s, .float32 o =>
      match f64TryFromF32 o with
      | none => false
      | some r => FP.eqb s r
  | .float64 s, .float64 o => FP.eqb s o
  | .dateTime s, .dateTime o => decide (s = o)
  | _, _ => false

/-- Rust `bool` ordering: `false < true`. -/
def boolCompare (a b : Bool) : Ordering :=
  if a = b then .eq else if b then .lt else .gt

/-- Rust `String` ordering (lexicographic; UTF-8 byte order coincides with
code-point order, which is what Lean's `String` order compares). -/
def stringCompare (a b : String) : Ordering :=
  if a < b then .lt else if a = b then .eq else .gt

/-- Three-way comparison of integers. -/
def intCompare (a b : ℤ) : Ordering :=
  if a < b then .lt else if a = b then .eq else .gt

/-- Three-way comparison of naturals. -/
def natCompare (a b : ℕ) : Ordering :=
  if a < b then .lt else if a = b then .eq else .gt

/-- `impl PartialOrd for Inner` (term.rs lines 63-76): same-kind payloads use
their natural order, every cross-kind pair falls to `Some(Ordering::Less)`. -/
def Inner.cmpPartial : Inner → Inner → Option Ordering
  | .bool s, .bool o => some (boolCompare s o)
  | .string s, .string o => some (stringCompare s o)
  | .signedInteger s, .signedInteger o => some (intCompare s o)
  | .unsignedInteger s, .unsignedInteger o => some (natCompare s o)
  | .float32 s, .float32 o => FP.cmpPartial s o
  | .float64 s, .float64 o => FP.cmpPartial s o
  | .dateTime s, .dateTime o => some (intCompare s o)
  | _, _ => some .lt

/-- `impl Ord for Inner` (term.rs lines 78-91): same-kind floats substitute
`Ordering::Less` for an indeterminate comparison via `unwrap_or`, every
cross-kind pair falls to `Ordering::Less`. -/
def Inner.cmp : Inner → Inner → Ordering
  | .bool s, .bool o => boolCompare s o
  | .string s, .string o => stringCompare s o
  | .signedInteger s, .signedInteger o => intCompare s o
  | .unsignedInteger s, .unsignedInteger o => natCompare s o
  | .float32 s, .float32 o => (FP.cmpPartial s o).getD .lt
  | .float64 s, .float64 o => (FP.cmpPartial s o).getD .lt
  | .dateTime s, .dateTime o => intCompare s o
  | _, _ => .lt

/-- Discriminant of an `Inner` payload; two payloads are of the same scalar
kind iff their discriminants agree. -/
def Inner.kindIdx : Inner → ℕ
  | .bool _ => 0
  | .string _ => 1
  | .signedInteger _ => 2
  | .unsignedInteger _ => 3
  | .float32 _ => 4
  | .float64 _ => 5
  | .dateTime _ => 6

/-- `Term` (term.rs line 7) is `Option<Inner>`; its derived equality compares
absent to absent as equal and delegates on present payloads. -/
def Term.eqb : Option Inner → Option Inner → Bool
  | none, none => true
  | some a, some b => Inner.eqb a b
  | _, _ => false

/-- Claim C1: `Inner` equality is symmetric on every supported cross-numeric
pairing: signed-vs-unsigned integers compare identically in both operand
orders (for payloads within the i64/u64 ranges), f32-vs-f64 compare
identically in both operand orders, and the documented concrete instances
hold: 16 = 16 across signedness both ways, -1 never equal to unsigned 1 in
either direction. -/
theorem c1_cross_numeric_symmetry :
    (∀ (a : ℤ) (b : ℕ), i64Min ≤ a → a ≤ i64Max → b ≤ u64Max →
      Inner.eqb (.signedInteger a) (.unsignedInteger b) =
        Inner.eqb (.unsignedInteger b) (.signedInteger a)) ∧
    (∀ x y : FP,
      Inner.eqb (.float32 x) (.float64 y) = Inner.eqb (.float64 y) (.float32 x)) ∧
    Inner.eqb (.signedInteger 16) (.unsignedInteger 16) = true ∧
    Inner.eqb (.unsignedInteger 16) (.signedInteger 16) = true ∧
    Inner.eqb (.signedInteger (-1)) (.unsignedInteger 1) = false ∧
    Inner.eqb (.unsignedInteger 1) (.signedInteger (-1)) = false := by
  refine ⟨?_, ?_, by decide, by decide, by decide, by decide⟩
  · intro a b _ hamax _
    simp only [Inner.eqb, tryEqSignedUnsigned, tryEqUnsignedSigned,
      i64TryFromU64, u64TryFromI64]
    by_cases hb : (b : ℤ) ≤ i64Max
    · by_cases ha : 0 ≤ a
      · rw [if_pos hb, if_pos ha]
        show decide (a = (b : ℤ)) = decide (b = a.toNat)
        rw [decide_eq_decide]
        omega
      · rw [if_pos hb, if_neg ha]
        show decide (a = (b : ℤ)) = false
        rw [decide_eq_false_iff_not]
        omega
    · by_cases ha : 0 ≤ a
      · rw [if_neg hb, if_pos ha]
        show false = decide (b = a.toNat)
        rw [eq_comm, decide_eq_false_iff_not]
        omega
      · rw [if_neg hb, if_neg ha]
  · intro x y
    simp [Inner.eqb, f64TryFromF32]

/-- Witness for C1 at the concrete pair signed 5, unsigned 7. -/
theorem c1_cross_numeric_symmetry_witness :
    Inner.eqb (.signedInteger 5) (.unsignedInteger 7) =
      Inner.eqb (.unsignedInteger 7) (.signedInteger 5) :=
  c1_cross_numeric_symmetry.1 5 7 (by decide) (by decide) (by decide)

/-- Claim C2: every cross-kind comparison of `Inner` payloads resolves to the
fixed outcome Less, under both the partial and the total comparison and
regardless of operand order; in particular a concrete pair compares Less in
both orders, so the relation is not antisymmetric. -/
theorem c2_cross_kind_cmp_less :
    (∀ a b : Inner, a.kindIdx ≠ b.kindIdx →
      Inner.cmpPartial a b = some .lt ∧ Inner.cmp a b = .lt ∧
      Inner.cmpPartial b a = some .lt ∧ Inner.cmp b a = .lt) ∧
    Inner.cmp (.bool true) (.string "") = .lt ∧
    Inner.cmp (.string "") (.bool true) = .lt := by
  refine ⟨?_, rfl, rfl⟩
  intro a b h
  cases a <;> cases b <;>
    simp_all [Inner.kindIdx, Inner.cmpPartial, Inner.cmp]

/-- Witness for C2 at the concrete cross-kind pair boolean true, empty
string. -/
theorem c2_cross_kind_cmp_less_witness :
    Inner.cmpPartial (.bool true) (.string "") = some .lt ∧
    Inner.cmp (.bool true) (.string "") = .lt ∧
    Inner.cmpPartial (.string "") (.bool true) = some .lt ∧
    Inner.cmp (.string "") (.bool true) = .lt :=
  c2_cross_kind_cmp_less.1 (.bool true) (.string "") (by decide)

/-- Modelled from the spec: the `ShouldSkip` rule for text, whose
implementation is not under src/ (the spec: a Value holding the text kind is
omittable iff the text itself is, e.g. the empty string). -/
def stringShouldSkip (s : String) : Bool := s.isEmpty

/-- `impl ShouldSkip for Term` (term.rs lines 260-268): the absent value is
skipped, a string payload delegates to the text rule, everything else is
kept. -/
def termShouldSkip : Option Inner → Bool
  | none => true
  | some (.string v) => stringShouldSkip v
  | some _ => false

/-- Claim C5: the omission predicate of a Term is true for the absent value,
true for a Term holding the empty string (by delegation to the text rule),
false for a Term holding any non-text non-absent payload, and in particular
false for the integer zero. -/
theorem c5_term_should_skip :
    termShouldSkip none = true ∧
    termShouldSkip (some (.string "")) = true ∧
    (∀ v : Inner, (∀ s, v ≠ .string s) → termShouldSkip (some v) = false) ∧
    termShouldSkip (some (.signedInteger 0)) = false := by
  refine ⟨rfl, by decide, ?_, rfl⟩
  intro v hv
  cases v with
  | bool b => rfl
  | string s => exact absurd rfl (hv s)
  | signedInteger i => rfl
  | unsignedInteger u => rfl
  | float32 x => rfl
  | float64 x => rfl
  | dateTime t => rfl

/-- Witness for C5 at the concrete non-text payload boolean true. -/
theorem c5_term_should_skip_witness :
    termShouldSkip (some (.bool true)) = false :=
  c5_term_should_skip.2.2.1 (.bool true) (fun _ h => Inner.noConfusion h)

/-- Claim C7: same-kind float comparison under `Ord` is a total function into
orderings, equal to the native partial comparison with the fixed outcome Less
substituted whenever that comparison is indeterminate; indeterminacy happens
exactly when an operand is NaN. -/
theorem c7_float_cmp_total :
    (∀ s o : FP, FP.cmpPartial s o = none →
      Inner.cmp (.float32 s) (.float32 o) = .lt ∧
      Inner.cmp (.float64 s) (.float64 o) = .lt) ∧
    (∀ s o : FP,
      Inner.cmp (.float32 s) (.float32 o) = (FP.cmpPartial s o).getD .lt) ∧
    (∀ s o : FP,
      Inner.cmp (.float64 s) (.float64 o) = (FP.cmpPartial s o).getD .lt) ∧
    (∀ s o : FP, FP.cmpPartial s o = none ↔ (s = .nan ∨ o = .nan)) := by
  refine ⟨?_, fun s o => rfl, fun s o => rfl, ?_⟩
  · intro s o h
    constructor <;> simp [Inner.cmp, h]
  · intro s o
    cases s <;> cases o <;> simp [FP.cmpPartial]

/-- Witness for C7 at the indeterminate pair NaN, 0.0. -/
theorem c7_float_cmp_total_witness :
    Inner.cmp (.float32 .nan) (.float32 (.finite 0)) = .lt ∧
    Inner.cmp (.float64 .nan) (.float64 (.finite 0)) = .lt :=
  c7_float_cmp_total.1 .nan (.finite 0) rfl

/-- True iff the payload is a NaN float, the one payload on which `Inner`
equality fails to be reflexive. -/
def Inner.isNaNFloat : Inner → Bool
  | .float32 .nan => true
  | .float64 .nan => true
  | _ => false

/-- Claim C10: Term equality is reflexive on every payload except NaN floats:
a Term whose payload is absent, boolean, string, integer, timestamp, or a
non-NaN float equals itself, while a Term holding a 32- or 64-bit NaN float
does not equal itself, despite the type claiming total equality. -/
theorem c10_reflexivity_except_nan :
    Term.eqb none none = true ∧
    (∀ v : Inner, v.isNaNFloat = false → Term.eqb (some v) (some v) = true) ∧
    Term.eqb (some (.float32 .nan)) (some (.float32 .nan)) = false ∧
    Term.eqb (some (.float64 .nan)) (some (.float64 .nan)) = false := by
  refine ⟨rfl, ?_, rfl, rfl⟩
  intro v hv
  cases v with
  | bool b => simp [Term.eqb, Inner.eqb]
  | string s => simp [Term.eqb, Inner.eqb]
  | signedInteger i => simp [Term.eqb, Inner.eqb]
  | unsignedInteger u => simp [Term.eqb, Inner.eqb]
  | float32 x =>
    cases x <;> simp_all [Term.eqb, Inner.eqb, FP.eqb, Inner.isNaNFloat]
  | float64 x =>
    cases x <;> simp_all [Term.eqb, Inner.eqb, FP.eqb, Inner.isNaNFloat]
  | dateTime t => simp [Term.eqb, Inner.eqb]

/-- Witness for C10 at the concrete non-NaN payload signed 0. -/
theorem c10_reflexivity_except_nan_witness :
    Term.eqb (some (.signedInteger 0)) (some (.signedInteger 0)) = true :=
  c10_reflexivity_except_nan.2.1 (.signedInteger 0) rfl

/-- Equality on modelled floats implies identity: the model collapses the two
zero signs, and NaN is never equal, so `eqb` only succeeds on identical
values. -/
theorem FP.eq_of_eqb {a b : FP} (h : FP.eqb a b = true) : a = b := by
  cases a <;> cases b <;> simp_all [FP.eqb]

/-- Spec wording for C6, signed left against unsigned right: the right-hand
value is losslessly re-expressible as i64 and the re-expressed values are
equal. -/
def specEqSignedUnsigned (s : ℤ) (o : ℕ) : Prop :=
  (o : ℤ) ≤ i64Max ∧ s = (o : ℤ)

/-- Spec wording for C6, unsigned left against signed right: the right-hand
value is losslessly re-expressible as u64 and the re-expressed values are
equal. -/
def specEqUnsignedSigned (s : ℕ) (o : ℤ) : Prop :=
  0 ≤ o ∧ (s : ℤ) = o

/-- Spec wording for C6, f32 left against f64 right: the right-hand value is
losslessly re-expressible as an f32 value and the re-expressed value equals
the left. -/
def specEqF32F64 (s o : FP) : Prop :=
  o.isF32Rep ∧ FP.eqb o s = true

/-- Spec wording for C6, f64 left against f32 right: re-expressing the right
in f64 is always lossless (exact widening), so the values must be equal. -/
def specEqF64F32 (s o : FP) : Prop :=
  FP.eqb s o = true

/-- The cross-numeric kind pairings the implementation supports, by
discriminant: signed against unsigned and f32 against f64, in both orders. -/
def crossNumericPair (i j : ℕ) : Prop :=
  (i = 2 ∧ j = 3) ∨ (i = 3 ∧ j = 2) ∨ (i = 4 ∧ j = 5) ∨ (i = 5 ∧ j = 4)

/-- Claim C6: cross-numeric equality holds iff the right-hand value is
losslessly re-expressible in the left-hand kind with equal result; a negative
signed integer never equals an unsigned one; an f64 value outside the f32
value range never equals any f32 value (in either order); and payloads of
unrelated kinds are always unequal. -/
theorem c6_cross_kind_equality :
    (∀ (s : ℤ) (o : ℕ),
      (Inner.eqb (.signedInteger s) (.unsignedInteger o) = true ↔
        specEqSignedUnsigned s o)) ∧
    (∀ (s : ℕ) (o : ℤ),
      (Inner.eqb (.unsignedInteger s) (.signedInteger o) = true ↔
        specEqUnsignedSigned s o)) ∧
    (∀ s o : FP, s.isF32Rep →
      (Inner.eqb (.float32 s) (.float64 o) = true ↔ specEqF32F64 s o)) ∧
    (∀ s o : FP,
      (Inner.eqb (.float64 s) (.float32 o) = true ↔ specEqF64F32 s o)) ∧
    (∀ (s : ℤ) (o : ℕ), s < 0 →
      Inner.eqb (.signedInteger s) (.unsignedInteger o) = false) ∧
    (∀ s o : FP, s.isF32Rep → ¬ o.isF32Rep →
      Inner.eqb (.float64 o) (.float32 s) = false ∧
      Inner.eqb (.float32 s) (.float64 o) = false) ∧
    (∀ a b : Inner, a.kindIdx ≠ b.kindIdx →
      ¬ crossNumericPair a.kindIdx b.kindIdx → Inner.eqb a b = false) := by
  refine ⟨?_, ?_, ?_, ?_, ?_, ?_, ?_⟩
  · intro s o
    simp only [Inner.eqb, tryEqSignedUnsigned, i64TryFromU64]
    by_cases hc : (o : ℤ) ≤ i64Max
    · rw [if_pos hc]
      show decide (s = (o : ℤ)) = true ↔ specEqSignedUnsigned s o
      simp [specEqSignedUnsigned, hc]
    · rw [if_neg hc]
      show false = true ↔ specEqSignedUnsigned s o
      simp [specEqSignedUnsigned, hc]
  · intro s o
    simp only [Inner.eqb, tryEqUnsignedSigned, u64TryFromI64]
    by_cases hc : 0 ≤ o
    · rw [if_pos hc]
      show decide (s = o.toNat) = true ↔ specEqUnsignedSigned s o
      simp only [decide_eq_true_eq, specEqUnsignedSigned]
      omega
    · rw [if_neg hc]
      show false = true ↔ specEqUnsignedSigned s o
      simp only [specEqUnsignedSigned]
      constructor
      · intro h
        exact absurd h (by simp)
      · intro h
        exact absurd h.1 hc
  · intro s o hs
    show FP.eqb o s = true ↔ specEqF32F64 s o
    constructor
    · intro h
      cases FP.eq_of_eqb h
      exact ⟨hs, h⟩
    · intro h
      exact h.2
  · intro s o
    exact Iff.rfl
  · intro s o hneg
    simp only [Inner.eqb, tryEqSignedUnsigned, i64TryFromU64]
    by_cases hc : (o : ℤ) ≤ i64Max
    · rw [if_pos hc]
      show decide (s = (o : ℤ)) = false
      rw [decide_eq_false_iff_not]
      omega
    · rw [if_neg hc]
  · intro s o hs ho
    have key : FP.eqb o s = false := by
      by_contra hne
      simp only [Bool.not_eq_false] at hne
      cases FP.eq_of_eqb hne
      exact ho hs
    exact ⟨key, key⟩
  · intro a b h hnp
    cases a <;> cases b <;>
      simp_all [Inner.kindIdx, crossNumericPair, Inner.eqb]

/-- Witness for C6 at concrete inputs: 16 across signedness, -3 against
unsigned 3, float one against double one, and boolean against string. -/
theorem c6_cross_kind_equality_witness :
    (Inner.eqb (.signedInteger 16) (.unsignedInteger 16) = true ↔
      specEqSignedUnsigned 16 16) ∧
    Inner.eqb (.signedInteger (-3)) (.unsignedInteger 3) = false ∧
    (Inner.eqb (.float32 (.finite 1)) (.float64 (.finite 1)) = true ↔
      specEqF32F64 (.finite 1) (.finite 1)) ∧
    Inner.eqb (.bool true) (.string "x") = false :=
  ⟨c6_cross_kind_equality.1 16 16,
   c6_cross_kind_equality.2.2.2.2.1 (-3) 3 (by decide),
   c6_cross_kind_equality.2.2.1 (.finite 1) (.finite 1) ⟨1, 0, by norm_num⟩,
   c6_cross_kind_equality.2.2.2.2.2.2 (.bool true) (.string "x")
     (by decide) (by simp [crossNumericPair, Inner.kindIdx])⟩

/-- Model of a serde_json `Value`: the JSON documents produced by the
serializer and consumed by the aggregations handler. Numbers are modelled by
the rational they denote. -/
inductive Json where
  | null : Json
  | bool (b : Bool) : Json
  | num (q : ℚ) : Json
  | str (s : String) : Json
  | arr (xs : List Json) : Json
  | obj (fields : List (String × Json)) : Json

/-- A relevance boost, modelled from the spec as the number it serializes to
(the `Boost` type itself is not under src/). -/
def Boost := ℚ

/-- Modelled from the spec: the `ShouldSkip` rule for an optional field (the
generic impl is not under src/): optional fields default to absent and are
omitted exactly when absent. -/
def optionShouldSkip {α : Type} (o : Option α) : Bool := o.isNone

/-- The `SpanQuery` sum type restricted to span-compatible kinds, with the
variants exercised by the source under src/: the span-term leaf (modelled
from the spec: a field name and a Term value, with optional boost and name)
and the span-field-masking wrapper (span_field_masking.rs lines 44-54). -/
inductive SpanQuery where
  | spanTerm (field : String) (value : Option Inner)
      (boost : Option ℚ) (name : Option String) : SpanQuery
  | spanFieldMasking (query : SpanQuery) (field : String) : SpanQuery

/-- The `Query` sum type with the variants exercised by the source under
src/: match-all (match_all_query.rs), the term leaf (modelled from the spec),
the constant-score wrapper (constant_score_query.rs) and the
span-field-masking wrapper (span_field_masking.rs). -/
inductive Query where
  | matchAll (boost : Option ℚ) (name : Option String) : Query
  | term (field : String) (value : Option Inner)
      (boost : Option ℚ) (name : Option String) : Query
  | constantScore (filter : Query) (boost : Option ℚ)
      (name : Option String) : Query
  | spanFieldMasking (query : SpanQuery) (field : String) : Query

/-- `Query::match_all()` (match_all_query.rs lines 33-38): default instance,
optional fields absent. -/
def Query.matchAllQ : Query := .matchAll none none

/-- Modelled from the spec: `Query::term(field, value)` factory, required
arguments only, optional fields absent. -/
def Query.termQ (field : String) (value : Option Inner) : Query :=
  .term field value none none

/-- `Query::constant_score(filter)` (constant_score_query.rs lines 44-52):
wraps the filter, optional fields absent. -/
def Query.constantScoreQ (filter : Query) : Query :=
  .constantScore filter none none

/-- Modelled from the spec: `Query::span_term(field, value)` factory. -/
def Query.spanTermQ (field : String) (value : Option Inner) : SpanQuery :=
  .spanTerm field value none none

/-- `Query::span_field_masking(query, field)` (span_field_masking.rs lines
58-73). -/
def Query.spanFieldMaskingQ (query : SpanQuery) (field : String) : Query :=
  .spanFieldMasking query field

/-- Modelled from the spec: the shared `boost` mutator attached by
`add_boost_and_name!` (macro not under src/): replaces the boost field and
returns the modified query; a no-op on the one kind with no boost field. -/
def Query.setBoost : Query → ℚ → Query
  | .matchAll _ n, b => .matchAll (some b) n
  | .term f v _ n, b => .term f v (some b) n
  | .constantScore q _ n, b => .constantScore q (some b) n
  | .spanFieldMasking q f, _ => .spanFieldMasking q f

/-- Modelled from the spec: the shared `name` mutator attached by
`add_boost_and_name!` (macro not under src/). -/
def Query.setName : Query → String → Query
  | .matchAll b _, n => .matchAll b (some n)
  | .term f v b _, n => .term f v b (some n)
  | .constantScore q b _, n => .constantScore q b (some n)
  | .spanFieldMasking q f, _ => .spanFieldMasking q f

/-- `ShouldSkip` over `SpanQuery`: the span-term leaf has no special rule
(modelled from the spec: default policy, never omit) and
`impl ShouldSkip for SpanFieldMaskingQuery {}` (span_field_masking.rs line
56) is the empty impl, inheriting the same never-omit default. -/
def SpanQuery.shouldSkip : SpanQuery → Bool
  | .spanTerm _ _ _ _ => false
  | .spanFieldMasking _ _ => false

/-- `ShouldSkip` over `Query`: match-all is the empty impl
(match_all_query.rs line 44), the term leaf has no special rule (modelled
from the spec: default policy), the constant-score wrapper delegates to its
filter (constant_score_query.rs lines 59-63) and span-field-masking inherits
the never-omit default (span_field_masking.rs line 56). -/
def Query.shouldSkip : Query → Bool
  | .matchAll _ _ => false
  | .term _ _ _ _ => false
  | .constantScore filter _ _ => filter.shouldSkip
  | .spanFieldMasking _ _ => false

/-- No span query is omittable under the rules above. -/
theorem SpanQuery.shouldSkip_eq_false (q : SpanQuery) : q.shouldSkip = false := by
  cases q <;> rfl

/-- The serialized `boost` attribute: emitted under its fixed key unless the
omission capability drops it. -/
def boostField (b : Option ℚ) : List (String × Json) :=
  if optionShouldSkip b then [] else [("boost", Json.num (b.getD 0))]

/-- The serialized `_name` attribute: emitted under its fixed key unless the
omission capability drops it. -/
def nameField (n : Option String) : List (String × Json) :=
  if optionShouldSkip n then [] else [("_name", Json.str (n.getD ""))]

/-- serde_json's rendering of a float: finite values as numbers, NaN and the
infinities as null. -/
def fpToJson : FP → Json
  | .finite q => .num q
  | _ => .null

/-- Modelled from the spec: timestamps serialize in a fixed textual format;
no claim depends on the rendering, modelled as the decimal rendering of the
timeline position. -/
def dateTimeFormat (t : ℤ) : String := toString t

/-- Serialization of an `Inner` payload (the untagged serde derive on
term.rs lines 9-32): each variant serializes as its content. -/
def serializeInner : Inner → Json
  | .bool b => .bool b
  | .string s => .str s
  | .signedInteger i => .num i
  | .unsignedInteger u => .num u
  | .float32 x => fpToJson x
  | .float64 x => fpToJson x
  | .dateTime t => .str (dateTimeFormat t)

/-- Serialization of a `Term` (the derive on term.rs line 7): absent is
null, a present payload serializes as its content. -/
def serializeTerm : Option Inner → Json
  | none => .null
  | some v => serializeInner v

/-- Serialization of a span query: one object keyed by the fixed kind name
per node, recursing depth-first (span_field_masking.rs lines 44-54 for the
wrapper; the span-term shape is modelled from the spec's wire-format
examples). -/
def serializeSpanQuery : SpanQuery → Json
  | .spanTerm f v b n =>
      .obj [("span_term",
        .obj [(f, .obj (("value", serializeTerm v) :: (boostField b ++ nameField n)))])]
  | .spanFieldMasking q f =>
      .obj [("span_field_masking",
        .obj [("query", serializeSpanQuery q), ("field", .str f)])]

/-- Serialization of a query: one object keyed by the fixed kind name per
node, recursing depth-first; required fields always present, optional fields
filtered by the omission capability (match_all_query.rs lines 18-31,
constant_score_query.rs lines 19-34, span_field_masking.rs lines 44-54; the
term shape is modelled from the spec's wire-format examples). -/
def serializeQuery : Query → Json
  | .matchAll b n => .obj [("match_all", .obj (boostField b ++ nameField n))]
  | .term f v b n =>
      .obj [("term",
        .obj [(f, .obj (("value", serializeTerm v) :: (boostField b ++ nameField n)))])]
  | .constantScore q b n =>
      .obj [("constant_score",
        .obj (("filter", serializeQuery q) :: (boostField b ++ nameField n)))]
  | .spanFieldMasking q f =>
      .obj [("span_field_masking",
        .obj [("query", serializeSpanQuery q), ("field", .str f)])]

/-- Claim C3: a wrapper node is omittable iff the sub-query it wraps is: the
constant-score query delegates to its inner filter, and the
span-field-masking query agrees with its wrapped span query on the omission
predicate. -/
theorem c3_wrapper_should_skip_delegates :
    (∀ (q : Query) (b : Option ℚ) (n : Option String),
      (Query.constantScore q b n).shouldSkip = q.shouldSkip) ∧
    (∀ (sq : SpanQuery) (f : String),
      (Query.spanFieldMasking sq f).shouldSkip = sq.shouldSkip) := by
  refine ⟨fun q b n => rfl, fun sq f => ?_⟩
  rw [SpanQuery.shouldSkip_eq_false]
  rfl

/-- Claim C8: the match-all query with no attributes serializes to exactly
the empty object under its kind key, and with boost 2 and name "test" set it
serializes with exactly those two attribute fields. -/
theorem c8_match_all_serialization :
    serializeQuery Query.matchAllQ = .obj [("match_all", .obj [])] ∧
    serializeQuery ((Query.matchAllQ.setBoost 2).setName "test") =
      .obj [("match_all",
        .obj [("boost", .num 2), ("_name", .str "test")])] := by
  constructor <;> rfl

/-- Claim C9: serialization of nested query trees recurses depth-first with
one object per node keyed by the fixed kind name: the constant-score wrapper
around a term query and the span-field-masking wrapper around a span-term
query produce exactly the documented documents, with no boost or _name
keys. -/
theorem c9_nested_serialization :
    serializeQuery (Query.constantScoreQ
        (Query.termQ "field" (some (.signedInteger 123)))) =
      .obj [("constant_score",
        .obj [("filter",
          .obj [("term", .obj [("field", .obj [("value", .num 123)])])])])] ∧
    serializeQuery (Query.spanFieldMaskingQ
        (Query.spanTermQ "field" (some (.unsignedInteger 1234))) "field") =
      .obj [("span_field_masking",
        .obj [("query",
          .obj [("span_term", .obj [("field", .obj [("value", .num 1234)])])]),
          ("field", .str "field")])] := by
  constructor <;> rfl

/-- serde_json's `Index<&str>` on a `Value` (used by the aggregations
handler): on an object, the value under the key, or null when the key is
missing; null on any non-object. -/
def jsonIndexStr (v : Json) (key : String) : Json :=
  match v with
  | .obj fields =>
      match fields.lookup key with
      | some x => x
      | none => .null
  | _ => .null

/-- `AggregationsHandler::terms` (aggregations_handler.rs lines 15-24): the
`?` operator propagates an absent response document as `None`; otherwise the
document is indexed by the aggregation name. -/
def aggregationsTerms (aggregations : Option Json) (aggregationName : String) :
    Option Json :=
  match aggregations with
  | none => none
  | some doc => some (jsonIndexStr doc aggregationName)

/-- Counterexample for C4: with a present (empty-object) response document
and a missing name, the accessor returns a present JSON null, not the absent
result the claim requires. -/
theorem c4_terms_counterexample :
    aggregationsTerms (some (Json.obj [])) "x" ≠ none := by
  simp [aggregationsTerms]

/-- Claim C4 as amended: the accessor returns the sub-document under the
name when present; when the response document is present but the name is
missing (or the document is not an object) it returns a present JSON null
rather than an absent result; it returns the absent result exactly when the
response document itself is absent; and it always returns (it is a total
function of its inputs). -/
theorem c4_terms_amended :
    (∀ (fields : List (String × Json)) (nm : String) (v : Json),
      fields.lookup nm = some v →
        aggregationsTerms (some (.obj fields)) nm = some v) ∧
    (∀ (fields : List (String × Json)) (nm : String),
      fields.lookup nm = none →
        aggregationsTerms (some (.obj fields)) nm = some .null) ∧
    (∀ nm : String, aggregationsTerms none nm = none) ∧
    (∀ (doc : Json) (nm : String),
      ∃ r : Json, aggregationsTerms (some doc) nm = some r) := by
  refine ⟨?_, ?_, fun nm => rfl, fun doc nm => ⟨jsonIndexStr doc nm, rfl⟩⟩
  · intro fields nm v h
    simp [aggregationsTerms, jsonIndexStr, h]
  · intro fields nm h
    simp [aggregationsTerms, jsonIndexStr, h]

/-- Witness for the amended C4 at a concrete one-field document. -/
theorem c4_terms_amended_witness :
    aggregationsTerms (some (Json.obj [("a", Json.bool true)])) "a" =
      some (Json.bool true) ∧
    aggregationsTerms (some (Json.obj [("b", Json.bool true)])) "a" =
      some Json.null :=
  ⟨c4_terms_amended.1 [("a", Json.bool true)] "a" (Json.bool true) rfl,
   c4_terms_amended.2.1 [("b", Json.bool true)] "a" rfl⟩

end ElasticDsl
